import Mathlib

/-!
Shallow embedding of the lead-to-location routing engine of the
GHL developer-challenge repository, together with proofs about the
claims of its specification.

The repository contains two implementations of the routing engine:

* `routerTest.js` (embedded in `EXECUTIVE-SUMMARY.md`): `routeLead`,
  `getNearestLocations`, `calculateLeadScore`, `checkLocationCapacity`,
  `calculateDistanceReal`, `calculateHaversineDistance`.  This is the
  variant with the waitlist fallback.  It is embedded below in the
  `RouterTest` namespace.
* `production-router.js`: class `ProductionLeadRouter` with `routeLead`,
  `getNearestLocationsReal`, `calculateLeadScore`, `validateLead`,
  `selectOptimalLocation`, `haversineDistance`.  Embedded below in the
  `ProductionRouter` namespace.

Modelling conventions:

* JavaScript numbers are modelled as `ℚ` (every value the routing logic
  produces from its inputs is rational); integer-valued results such as
  the lead score are modelled as `ℤ`.
* Network calls are modelled as oracle parameters: `geo` is the
  geocoding lookup (Zippopotam AP I; `none` models every failure path of
  `getZipCoordinates`), `capApi` is the remote capacity store (`none`
  models "no key configured / request failed", which in the source
  falls back to locally computed or simulated data).
* The numeric value returned by the floating-point haversine
  computation is abstracted as an oracle `hav : Coord → Coord → ℚ` in
  the executable pipeline; the haversine formula itself is modelled
  exactly over `ℝ` as `calculateHaversineDistance` below.
* The reads of the wall clock (`new Date().getHours()`) inside the lead
  scorers are modelled by an explicit oracle argument `hour`.
* The in-place mutation `lead.finalScore = calculateLeadScore(lead)` is
  modelled by state passing: `routeLead` returns the outcome together
  with the post-call state of the caller's lead object.
* JavaScript `Array.prototype.sort` is stable (ECMAScript 2019), so the
  `sort` calls are embedded as `List.insertionSort`, which is stable.
* Fields that the routing logic only tests for truthiness (`lead.id`,
  `lead.phone`, `lead.email`, `lead.firstName`) are modelled as `Bool`
  presence flags; fields never read by the routing logic (timestamps,
  `businessHours`, metrics counters, console logging, webhook delivery)
  are not modelled.
-/

attribute [local semireducible] Rat.mul Rat.add Rat.sub Rat.inv Rat.ofScientific

/-- Routing configuration: the fields of `CONFIG` in `routerTest.js` and of
`PRODUCTION_CONFIG` in `production-router.js` that the routing logic reads.
Both files use the same values. -/
structure RouterConfig where
  ZIP_RADIUS_MILES : ℚ
  HIGH_SCORE_THRESHOLD : ℤ
  MAX_DAILY_LEADS_PER_LOCATION : ℤ
  FALLBACK_ENABLED : Bool
deriving DecidableEq

/-- Values of `CONFIG` / `PRODUCTION_CONFIG`. -/
def CONFIG : RouterConfig :=
  ⟨25, 80, 50, true⟩

/-- Coordinate pair produced by the zip-code lookup (`getZipCoordinates`
parses decimal strings, hence rational values). -/
structure Coord where
  lat : ℚ
  lng : ℚ
deriving DecidableEq

/-- A lead as consumed by the routing code.  `zip` is `none` when the field
is absent; `hasId`, `phone`, `email`, `firstName` are the truthiness of the
corresponding fields; `leadScore` is the raw quality signal (`none` when
absent); `finalScore` is the computed field written by `routeLead`. -/
structure Lead where
  hasId : Bool
  zip : Option String
  leadScore : Option ℚ
  source : String
  phone : Bool
  email : Bool
  firstName : Bool
  finalScore : Option ℤ
deriving DecidableEq

/-- A candidate service location (static fields; `dailyLeadCount` models
`location.dailyLeadCount || 0`). -/
structure Location where
  id : String
  name : String
  zipCode : String
  priority : String
  status : String
  dailyLeadCount : ℤ
deriving DecidableEq

/-- Capacity record `{hasCapacity, availableSlots, isOperational}` as
returned by `checkLocationCapacity` / the capacity store. -/
structure Capacity where
  hasCapacity : Bool
  availableSlots : ℤ
  isOperational : Bool
deriving DecidableEq

/-- A location spread together with its computed distance,
`{...location, distance}`. -/
structure RLoc where
  loc : Location
  distance : ℚ
deriving DecidableEq

/-- A location spread together with its distance and its capacity record,
`{...location, distance, capacity}`. -/
structure CLoc where
  loc : Location
  distance : ℚ
  capacity : Capacity
deriving DecidableEq

/-- Truthiness of a possibly-absent JavaScript string (`undefined` and the
empty string are falsy). -/
def zipTruthy : Option String → Bool
  | none => false
  | some s => !s.isEmpty

/-- The test `/^\d{5}$/.test(zip)` of `validateLead` in
`production-router.js`: exactly five ASCII digits. -/
def isFiveDigits (s : String) : Bool :=
  s.length == 5 && s.toList.all Char.isDigit

/-- JavaScript `Math.round`: round half toward positive infinity. -/
def jsRound (q : ℚ) : ℤ :=
  ⌊q + 1 / 2⌋

/-- Source-channel multiplier table; `sourceMultipliers` in `routerTest.js`
and `sourceBonus` in `production-router.js` contain the same entries, and
`sourceMultipliers[lead.source] || 1.0` yields `1.0` for unknown sources. -/
def sourceMultipliers (source : String) : ℚ :=
  if source = "facebook" then 1.2
  else if source = "google" then 1.1
  else if source = "website" then 1.0
  else if source = "referral" then 1.3
  else if source = "walk-in" then 0.9
  else 1.0

/-- JavaScript `Math.atan2` on finite arguments, over `ℝ`. -/
noncomputable def atan2 (y x : ℝ) : ℝ :=
  if 0 < x then Real.arctan (y / x)
  else if x < 0 then
    (if 0 ≤ y then Real.arctan (y / x) + Real.pi else Real.arctan (y / x) - Real.pi)
  else if 0 < y then Real.pi / 2
  else if y < 0 then -(Real.pi / 2)
  else 0

/-- The haversine formula of `calculateHaversineDistance` in `routerTest.js`
(identical to `haversineDistance` in `production-router.js`), modelled
exactly over `ℝ`: Earth radius 3959 miles,
`a = sin(dLat/2)^2 + cos(lat1)cos(lat2)sin(dLng/2)^2`,
result `R * 2 * atan2(sqrt a, sqrt (1-a))`. -/
noncomputable def calculateHaversineDistance (coords1 coords2 : Coord) : ℝ :=
  let R : ℝ := 3959
  let dLat : ℝ := ((coords2.lat : ℝ) - (coords1.lat : ℝ)) * Real.pi / 180
  let dLng : ℝ := ((coords2.lng : ℝ) - (coords1.lng : ℝ)) * Real.pi / 180
  let a : ℝ := Real.sin (dLat / 2) * Real.sin (dLat / 2) +
    Real.cos ((coords1.lat : ℝ) * Real.pi / 180) * Real.cos ((coords2.lat : ℝ) * Real.pi / 180) *
      (Real.sin (dLng / 2) * Real.sin (dLng / 2))
  R * 2 * atan2 (Real.sqrt a) (Real.sqrt (1 - a))

/-- Distance between two zip codes: `calculateDistanceReal` in
`routerTest.js`, `calculateRealDistance` in `production-router.js`.  Both
look up the two coordinates and return the sentinel `999` when either
lookup fails; otherwise they return the haversine distance, whose numeric
value is supplied by the oracle `hav`. -/
def calculateRealDistance (hav : Coord → Coord → ℚ) (geo : String → Option Coord)
    (zip1 zip2 : String) : ℚ :=
  match geo zip1, geo zip2 with
  | some coords1, some coords2 => hav coords1 coords2
  | _, _ => 999

/-- Ordering of distance-decorated locations used by the comparator
`(a, b) => a.distance - b.distance`. -/
def distLE (a b : RLoc) : Prop :=
  a.distance ≤ b.distance

instance : DecidableRel distLE := fun a b =>
  inferInstanceAs (Decidable (a.distance ≤ b.distance))

instance : IsTotal RLoc distLE :=
  ⟨fun a b => le_total a.distance b.distance⟩

instance : IsTrans RLoc distLE :=
  ⟨fun _ _ _ h1 h2 => le_trans h1 h2⟩

/-- Same ordering on capacity-decorated locations. -/
def cdistLE (a b : CLoc) : Prop :=
  a.distance ≤ b.distance

instance : DecidableRel cdistLE := fun a b =>
  inferInstanceAs (Decidable (a.distance ≤ b.distance))

instance : IsTotal CLoc cdistLE :=
  ⟨fun a b => le_total a.distance b.distance⟩

instance : IsTrans CLoc cdistLE :=
  ⟨fun _ _ _ h1 h2 => le_trans h1 h2⟩

/-- Ordering used by the fallback comparator
`(a, b) => b.capacity.availableSlots - a.capacity.availableSlots`
(descending by available slots). -/
def slotsGE (a b : CLoc) : Prop :=
  b.capacity.availableSlots ≤ a.capacity.availableSlots

instance : DecidableRel slotsGE := fun a b =>
  inferInstanceAs (Decidable (b.capacity.availableSlots ≤ a.capacity.availableSlots))

instance : IsTotal CLoc slotsGE :=
  ⟨fun a b => (le_total b.capacity.availableSlots a.capacity.availableSlots)⟩

instance : IsTrans CLoc slotsGE :=
  ⟨fun _ _ _ h1 h2 => le_trans h2 h1⟩

namespace RouterTest

/-- Lead scorer of `routerTest.js`.  `hour` is the value of the internal
wall-clock read `new Date().getHours()`.  The base is
`lead.leadScore || 0` (absent and zero both give `0`). -/
def calculateLeadScore (lead : Lead) (hour : ℕ) : ℤ :=
  let score : ℚ := lead.leadScore.getD 0
  let score := score * sourceMultipliers lead.source
  let score := if lead.phone && lead.email && lead.firstName then score + 10 else score
  let score := if 9 ≤ hour ∧ hour ≤ 17 then score + 5 else score
  min 100 (jsRound score)

/-- Map of `getNearestLocations` before filtering: every location paired
with its computed distance. -/
def locationsWithDistance (hav : Coord → Coord → ℚ) (geo : String → Option Coord)
    (leadZip : String) (locations : List Location) : List RLoc :=
  locations.map fun location =>
    RLoc.mk location (calculateRealDistance hav geo leadZip location.zipCode)

/-- The in-range candidates: `filter(loc => loc.distance <= CONFIG.ZIP_RADIUS_MILES)`. -/
def inRangeLocations (hav : Coord → Coord → ℚ) (geo : String → Option Coord)
    (leadZip : String) (locations : List Location) : List RLoc :=
  (locationsWithDistance hav geo leadZip locations).filter fun loc =>
    decide (loc.distance ≤ CONFIG.ZIP_RADIUS_MILES)

/-- The `getNearestLocations` pipeline: decorate with distances, filter to
the service radius, stable-sort ascending by distance
(`sort((a, b) => a.distance - b.distance)`). -/
def getNearestLocations (hav : Coord → Coord → ℚ) (geo : String → Option Coord)
    (leadZip : String) (locations : List Location) : List RLoc :=
  List.insertionSort distLE (inRangeLocations hav geo leadZip locations)

/-- Capacity check of `routerTest.js`: remote data when the store answers,
otherwise the locally computed record (`currentLeads` versus
`MAX_DAILY_LEADS_PER_LOCATION`, operational iff `status === 'active'`). -/
def checkLocationCapacity (capApi : String → Option Capacity) (location : Location) : Capacity :=
  match capApi location.id with
  | some capacityData => capacityData
  | none =>
    ⟨decide (location.dailyLeadCount < CONFIG.MAX_DAILY_LEADS_PER_LOCATION),
      CONFIG.MAX_DAILY_LEADS_PER_LOCATION - location.dailyLeadCount,
      decide (location.status = "active")⟩

/-- The capacity-decorated candidates,
`nearestLocations.map(location => ({...location, capacity: await checkLocationCapacity(location)}))`. -/
def withCapacity (capApi : String → Option Capacity) (nearestLocations : List RLoc) : List CLoc :=
  nearestLocations.map fun rl =>
    CLoc.mk rl.loc rl.distance (checkLocationCapacity capApi rl.loc)

/-- The available candidates,
`filter(loc => loc.capacity.hasCapacity && loc.capacity.isOperational)`. -/
def availableOf (locationsWithCap : List CLoc) : List CLoc :=
  locationsWithCap.filter fun loc => loc.capacity.hasCapacity && loc.capacity.isOperational

/-- The fallback ranking,
`filter(loc => loc.capacity.isOperational).sort((a, b) => b.capacity.availableSlots - a.capacity.availableSlots)`. -/
def fallbackCandidates (locationsWithCap : List CLoc) : List CLoc :=
  List.insertionSort slotsGE
    (locationsWithCap.filter fun loc => loc.capacity.isOperational)

/-- The full in-range capacity-decorated candidate list of one routing
call. -/
def candidates (hav : Coord → Coord → ℚ) (geo : String → Option Coord)
    (capApi : String → Option Capacity) (leadZip : String)
    (locations : List Location) : List CLoc :=
  withCapacity capApi (getNearestLocations hav geo leadZip locations)

/-- Outcome of `routeLead` in `routerTest.js`: the error objects
(`INVALID_ZIP`, `NO_LOCATIONS`, `OUT_OF_RANGE`, `NO_CAPACITY`), the
waitlist fallback object (`waitlist: true`) and the success object. -/
inductive RouteOutcome where
  | invalidZip
  | noLocations
  | outOfRange
  | noCapacity
  | waitlisted (location : CLoc) (reason : String) (isHighPriority : Bool)
  | routed (location : CLoc) (reason : String) (isHighPriority : Bool)
deriving DecidableEq

/-- Routing steps of `routeLead` after validation and scoring: radius
filtering, capacity filtering, fallback, and selection. -/
def routeScored (hav : Coord → Coord → ℚ) (geo : String → Option Coord)
    (capApi : String → Option Capacity) (score : ℤ) (z : String)
    (locations : List Location) : RouteOutcome :=
  let nearestLocations := getNearestLocations hav geo z locations
  if nearestLocations.isEmpty then .outOfRange
  else
    let locationsWithCapacity := withCapacity capApi nearestLocations
    let availableLocations := availableOf locationsWithCapacity
    let isHigh := decide (CONFIG.HIGH_SCORE_THRESHOLD ≤ score)
    match availableLocations with
    | [] =>
      if CONFIG.FALLBACK_ENABLED then
        match fallbackCandidates locationsWithCapacity with
        | fallbackLocation :: _ =>
          .waitlisted fallbackLocation
            "No capacity at nearest locations, routed to best available" isHigh
        | [] => .noCapacity
      else .noCapacity
    | selectedLocation :: _ =>
      if isHigh then
        .routed selectedLocation "High-value lead routed to closest available location" isHigh
      else
        match availableLocations.find? (fun loc => decide (loc.loc.priority = "low-traffic")) with
        | some lowTrafficLocation =>
          .routed lowTrafficLocation "Standard lead routed to low-traffic location" isHigh
        | none =>
          .routed selectedLocation "Standard lead routed to closest available location" isHigh

/-- Main routing function `routeLead` of `routerTest.js`.  The second
component of the result is the state of the caller's lead object after
the call: `lead.finalScore = calculateLeadScore(lead)` mutates it in
place as soon as validation has passed. -/
def routeLead (hav : Coord → Coord → ℚ) (geo : String → Option Coord)
    (capApi : String → Option Capacity) (hour : ℕ)
    (lead : Lead) (locations : List Location) : RouteOutcome × Lead :=
  match lead.zip with
  | none => (.invalidZip, lead)
  | some z =>
    if z.isEmpty then (.invalidZip, lead)
    else if locations.isEmpty then (.noLocations, lead)
    else
      let score := calculateLeadScore lead hour
      let lead' := { lead with finalScore := some score }
      (routeScored hav geo capApi score z locations, lead')

end RouterTest

namespace ProductionRouter

/-- Input validation of `production-router.js`:
`lead && lead.id && lead.zip && /^\d{5}$/.test(lead.zip)`. -/
def validateLead (lead : Lead) : Bool :=
  lead.hasId &&
    (match lead.zip with
      | none => false
      | some z => isFiveDigits z)

/-- Lead scorer of `production-router.js`.  `hour` is the value of the
internal wall-clock read `new Date().getHours()`.  The base is
`lead.leadScore || 50`: a lead score that is absent, and also a present
lead score of `0` (falsy), fall back to `50`. -/
def calculateLeadScore (lead : Lead) (hour : ℕ) : ℤ :=
  let score : ℚ :=
    match lead.leadScore with
    | none => 50
    | some s => if s = 0 then 50 else s
  let score := score * sourceMultipliers lead.source
  let score := if lead.phone && lead.email && lead.firstName then score + 10 else score
  let score := if 9 ≤ hour ∧ hour ≤ 17 then score + 5 else score
  min 100 (jsRound score)

/-- The `getNearestLocationsReal` pipeline of `production-router.js`: the
same decorate / filter / stable-sort chain as `getNearestLocations`
(the per-pair distance memoization cache is elided: with a pure geocoding
oracle the cached value equals the recomputed one). -/
def getNearestLocationsReal (hav : Coord → Coord → ℚ) (geo : String → Option Coord)
    (leadZip : String) (locations : List Location) : List RLoc :=
  List.insertionSort distLE
    ((locations.map fun location =>
        RLoc.mk location (calculateRealDistance hav geo leadZip location.zipCode)).filter
      fun loc => decide (loc.distance ≤ CONFIG.ZIP_RADIUS_MILES))

/-- Selection policy `selectOptimalLocation` of `production-router.js`:
filter to `loc.capacity?.hasCapacity && loc.status === 'active'`; the
closest available for high scores, otherwise the first low-traffic
available with the closest as fallback. -/
def selectOptimalLocation (finalScore : Option ℤ) (locations : List CLoc) : Option CLoc :=
  let available := locations.filter fun loc =>
    loc.capacity.hasCapacity && decide (loc.loc.status = "active")
  match available with
  | [] => none
  | first :: _ =>
    let isHigh :=
      match finalScore with
      | some fs => decide (CONFIG.HIGH_SCORE_THRESHOLD ≤ fs)
      | none => false
    if isHigh then some first
    else
      match available.find? (fun loc => decide (loc.loc.priority = "low-traffic")) with
      | some lowTraffic => some lowTraffic
      | none => some first

/-- Reason strings of `getRoutingReason`. -/
def getRoutingReason (finalScore : Option ℤ) (location : CLoc) : String :=
  let isHighValue :=
    match finalScore with
    | some fs => decide (CONFIG.HIGH_SCORE_THRESHOLD ≤ fs)
    | none => false
  if isHighValue then "High-value lead routed to optimal location"
  else if location.loc.priority = "low-traffic" then
    "Standard lead routed to low-traffic location"
  else "Lead routed to nearest available location"

/-- Outcome of `ProductionLeadRouter.routeLead`: the error responses
(`INVALID_LEAD`, `OUT_OF_RANGE`, `NO_CAPACITY`) and the success object.
This variant has no waitlist fallback path. -/
inductive ProdOutcome where
  | invalidLead
  | outOfRange
  | noCapacity
  | success (location : CLoc) (reason : String) (isHighPriority : Bool)
deriving DecidableEq

/-- Routing steps of `ProductionLeadRouter.routeLead` after validation and
scoring.  `capApi` is the total capacity oracle (`getLocationCapacityReal`
answers from the remote store or from `getSimulatedCapacity`). -/
def routeScored (hav : Coord → Coord → ℚ) (geo : String → Option Coord)
    (capApi : String → Capacity) (score : ℤ) (z : String)
    (locations : List Location) : ProdOutcome :=
  let nearestLocations := getNearestLocationsReal hav geo z locations
  if nearestLocations.isEmpty then .outOfRange
  else
    let locationsWithCapacity := nearestLocations.map fun rl =>
      CLoc.mk rl.loc rl.distance (capApi rl.loc.id)
    match selectOptimalLocation (some score) locationsWithCapacity with
    | none => .noCapacity
    | some selectedLocation =>
      .success selectedLocation (getRoutingReason (some score) selectedLocation)
        (decide (CONFIG.HIGH_SCORE_THRESHOLD ≤ score))

/-- Main routing function `routeLead` of `production-router.js`.  The
second component is the state of the caller's lead object after the call
(`lead.finalScore = this.calculateLeadScore(lead)` mutates it in place
once validation has passed). -/
def routeLead (hav : Coord → Coord → ℚ) (geo : String → Option Coord)
    (capApi : String → Capacity) (hour : ℕ)
    (lead : Lead) (locations : List Location) : ProdOutcome × Lead :=
  if validateLead lead then
    let score := calculateLeadScore lead hour
    let lead' := { lead with finalScore := some score }
    (routeScored hav geo capApi score (lead.zip.getD "") locations, lead')
  else (.invalidLead, lead)

end ProductionRouter

/-- Score computation exactly as claim C4 words it: the raw quality signal
taken as `50` only when absent, times the source multiplier, plus the
completeness and business-hours bonuses, clamped to `[0, 100]` and
rounded. -/
def c4ClaimedScore (lead : Lead) (hour : ℕ) : ℤ :=
  let base : ℚ := lead.leadScore.getD 50
  let score := base * sourceMultipliers lead.source +
    (if lead.phone && lead.email && lead.firstName then 10 else 0) +
    (if 9 ≤ hour ∧ hour ≤ 17 then 5 else 0)
  max 0 (min 100 (jsRound score))

/-- Score computation as claim C4 must be amended for
`production-router.js`: the raw quality signal falls back to `50` both
when absent and when it equals `0` (JavaScript falsy default), and only
the upper clamp at `100` is applied. -/
def c4AmendedScore (lead : Lead) (hour : ℕ) : ℤ :=
  let base : ℚ :=
    match lead.leadScore with
    | none => 50
    | some s => if s = 0 then 50 else s
  min 100 (jsRound (base * sourceMultipliers lead.source +
    (if lead.phone && lead.email && lead.firstName then 10 else 0) +
    (if 9 ≤ hour ∧ hour ≤ 17 then 5 else 0)))

/-- Ordering that claim C3 asserts for the in-range candidate list:
ascending by distance with ties broken by the location identifier
(lexicographic string order, written on the character list, which is the
definition of `<` on `String`). -/
def tieBrokenById (l : List RLoc) : Prop :=
  l.Pairwise fun a b =>
    a.distance < b.distance ∨ (a.distance = b.distance ∧ a.loc.id.data < b.loc.id.data)

instance (l : List RLoc) : Decidable (tieBrokenById l) :=
  inferInstanceAs (Decidable (l.Pairwise _))

/-! Concrete fixtures used by witness and counterexample theorems. -/

/-- Haversine oracle returning distance 0 for every pair. -/
def havZero : Coord → Coord → ℚ := fun _ _ => 0

/-- Geocoding oracle on which every lookup fails. -/
def geoNone : String → Option Coord := fun _ => none

/-- Geocoding oracle resolving every zip to the origin. -/
def geoOrigin : String → Option Coord := fun _ => some ⟨0, 0⟩

/-- Geocoding oracle resolving only the zip `90001`. -/
def geoOnly90001 : String → Option Coord := fun z => if z = "90001" then some ⟨0, 0⟩ else none

/-- Remote capacity store that never answers (local fallback data is used). -/
def capRemoteNone : String → Option Capacity := fun _ => none

/-- Remote capacity store on which every location is full but operational;
`loc_002` has the most available slots. -/
def capAllFull : String → Option Capacity :=
  fun id => some ⟨false, if id = "loc_002" then 35 else 5, true⟩

/-- Total capacity oracle for the production router. -/
def capProdSim : String → Capacity := fun _ => ⟨true, 10, true⟩

/-- Sample locations, taken from the repository's test data. -/
def locDowntown : Location :=
  ⟨"loc_001", "Downtown Fitness Hub", "90001", "high-traffic", "active", 45⟩

def locWestside : Location :=
  ⟨"loc_002", "Westside Wellness Center", "90210", "low-traffic", "active", 15⟩

/-- Two equidistant locations whose identifiers are in the reverse of list
order, for the tie-break counterexample. -/
def locIdB : Location := ⟨"loc_b", "East Valley Gym", "90001", "low-traffic", "active", 25⟩

def locIdA : Location := ⟨"loc_a", "Beach City Fitness", "90001", "low-traffic", "active", 25⟩

/-- Sample leads. -/
def leadHigh : Lead := ⟨true, some "90001", some 90, "facebook", true, true, true, none⟩

def leadLow : Lead := ⟨true, some "90001", some 30, "website", false, false, false, none⟩

def leadBadZip : Lead := ⟨true, some "ABCDE", some 50, "website", false, false, false, none⟩

def leadZeroScore : Lead := ⟨true, some "11111", some 0, "website", false, false, false, none⟩

def leadMidScore : Lead := ⟨true, some "22222", some 40, "website", false, false, false, none⟩

/-! Helper lemmas. -/

theorem sourceMultipliers_pos (source : String) : 0 < sourceMultipliers source := by
  unfold sourceMultipliers
  split_ifs <;> norm_num

/-- Filtering by an exact key value commutes with `orderedInsert` whenever
elements that the insertion passes over have a different key (stability of
insertion with respect to key-equal elements). -/
theorem filter_key_orderedInsert {α β : Type} [DecidableEq β] (r : α → α → Prop) [DecidableRel r]
    (key : α → β) (hkey : ∀ x y, ¬ r x y → key y ≠ key x) (a : α) (l : List α) (d : β) :
    (List.orderedInsert r a l).filter (fun x => decide (key x = d)) =
      if key a = d then a :: l.filter (fun x => decide (key x = d))
      else l.filter (fun x => decide (key x = d)) := by
  induction l with
  | nil =>
    by_cases hd : key a = d
    · simp [List.orderedInsert, hd]
    · simp [List.orderedInsert, hd]
  | cons b t ih =>
    by_cases hr : r a b
    · rw [List.orderedInsert, if_pos hr]
      by_cases hd : key a = d
      · simp [List.filter_cons, hd]
      · simp [List.filter_cons, hd]
    · rw [List.orderedInsert, if_neg hr]
      by_cases hd : key a = d
      · have hb : key b ≠ d := fun h => (hkey a b hr) (h.trans hd.symm)
        simp [List.filter_cons, hb, hd, ih]
      · simp [List.filter_cons, hd, ih]

/-- Stability of `List.insertionSort`: the sublist of elements with any
fixed key is unchanged by the sort. -/
theorem filter_key_insertionSort {α β : Type} [DecidableEq β] (r : α → α → Prop) [DecidableRel r]
    (key : α → β) (hkey : ∀ x y, ¬ r x y → key y ≠ key x) (l : List α) (d : β) :
    (List.insertionSort r l).filter (fun x => decide (key x = d)) =
      l.filter (fun x => decide (key x = d)) := by
  induction l with
  | nil => rfl
  | cons a t ih =>
    rw [List.insertionSort, filter_key_orderedInsert r key hkey, ih]
    by_cases hd : key a = d
    · rw [if_pos hd, List.filter_cons, if_pos (by simpa using hd)]
    · rw [if_neg hd, List.filter_cons, if_neg (by simpa using hd)]

theorem getNearestLocations_sorted (hav : Coord → Coord → ℚ) (geo : String → Option Coord)
    (leadZip : String) (locations : List Location) :
    List.Sorted distLE (RouterTest.getNearestLocations hav geo leadZip locations) :=
  List.sorted_insertionSort distLE _

theorem candidates_sorted (hav : Coord → Coord → ℚ) (geo : String → Option Coord)
    (capApi : String → Option Capacity) (leadZip : String) (locations : List Location) :
    List.Pairwise cdistLE (RouterTest.candidates hav geo capApi leadZip locations) := by
  unfold RouterTest.candidates RouterTest.withCapacity
  rw [List.pairwise_map]
  exact (getNearestLocations_sorted hav geo leadZip locations).imp (fun h => h)

/-- After a successful validation, `routeLead` performs the score mutation
and hands over to the post-validation routing steps. -/
theorem RouterTest.routeLead_validated (hav : Coord → Coord → ℚ) (geo : String → Option Coord)
    (capApi : String → Option Capacity) (hour : ℕ) (lead : Lead) (locations : List Location)
    (z : String) (hz : lead.zip = some z) (hne : z.isEmpty = false)
    (hlocs : locations ≠ []) :
    RouterTest.routeLead hav geo capApi hour lead locations =
      (RouterTest.routeScored hav geo capApi (RouterTest.calculateLeadScore lead hour) z locations,
        { lead with finalScore := some (RouterTest.calculateLeadScore lead hour) }) := by
  obtain ⟨a, t, rfl⟩ : ∃ a t, locations = a :: t := by
    cases locations with
    | nil => exact absurd rfl hlocs
    | cons a t => exact ⟨a, t, rfl⟩
  unfold RouterTest.routeLead
  rw [hz]
  simp [hne]

/-! Claim theorems. -/

/-- Claim C9 (confirmed): the haversine distance function is symmetric,
`distance(A,B) = distance(B,A)` for every pair of coordinates. -/
theorem claim9_distance_symmetric (c1 c2 : Coord) :
    calculateHaversineDistance c1 c2 = calculateHaversineDistance c2 c1 := by
  unfold calculateHaversineDistance
  dsimp only
  have e1 : ((c1.lat : ℝ) - (c2.lat : ℝ)) * Real.pi / 180 / 2 =
      -(((c2.lat : ℝ) - (c1.lat : ℝ)) * Real.pi / 180 / 2) := by ring
  have e2 : ((c1.lng : ℝ) - (c2.lng : ℝ)) * Real.pi / 180 / 2 =
      -(((c2.lng : ℝ) - (c1.lng : ℝ)) * Real.pi / 180 / 2) := by ring
  rw [e1, e2, Real.sin_neg, Real.sin_neg]
  ring_nf

/-- Claim C6 counterexample (the claim is corrected): the scorer's result
varies with the hour read from the wall clock inside the function while
every explicit lead input is unchanged, so the score is not a pure
function of the lead data together with an explicitly passed time — the
source has no time parameter at all. -/
theorem claim6_cex :
    ProductionRouter.calculateLeadScore leadMidScore 10 ≠
      ProductionRouter.calculateLeadScore leadMidScore 3 := by decide

/-- Claim C6 amended: `calculateLeadScore` reads the current hour from the
wall clock inside the function (modelled by the `hour` oracle); it is
deterministic given the lead data and that ambient hour, and depends on
the clock only through whether the hour lies in the business band
`9..17`. -/
theorem claim6_amended (lead : Lead) (h1 h2 : ℕ)
    (hband : (9 ≤ h1 ∧ h1 ≤ 17) ↔ (9 ≤ h2 ∧ h2 ≤ 17)) :
    ProductionRouter.calculateLeadScore lead h1 = ProductionRouter.calculateLeadScore lead h2 := by
  unfold ProductionRouter.calculateLeadScore
  simp only [hband]

/-- Witness for the amended claim C6 at concrete hours 10 and 11. -/
theorem claim6_amended_witness :
    ((9 ≤ 10 ∧ 10 ≤ 17) ↔ (9 ≤ 11 ∧ 11 ≤ 17)) ∧
      ProductionRouter.calculateLeadScore leadMidScore 10 =
        ProductionRouter.calculateLeadScore leadMidScore 11 :=
  ⟨by decide, claim6_amended leadMidScore 10 11 (by decide)⟩

/-- Claim C4 counterexample (the claim is corrected): for a lead whose raw
quality signal is present and equal to `0`, the claimed formula (signal
taken as `50` only when absent) gives `0`, while the code's falsy default
`lead.leadScore || 50` gives `50`. -/
theorem claim4_cex :
    ProductionRouter.calculateLeadScore leadZeroScore 3 = 50 ∧
      c4ClaimedScore leadZeroScore 3 = 0 ∧
      ProductionRouter.calculateLeadScore leadZeroScore 3 ≠ c4ClaimedScore leadZeroScore 3 := by
  refine ⟨by decide, by decide, by decide⟩

/-- Claim C4 amended: the computed score equals the raw quality signal —
taken as `50` when absent and also when it equals `0` (falsy default) —
multiplied by the source-channel multiplier, plus a bonus of 10 when
phone, email and name are all present, plus a bonus of 5 during business
hours, capped above at `100` and rounded (no lower clamp is applied by
the code); for any lead whose raw signal is nonnegative, as the data
model requires, the result is an integer in `[0, 100]`. -/
theorem claim4_amended (lead : Lead) (hour : ℕ) :
    ProductionRouter.calculateLeadScore lead hour = c4AmendedScore lead hour ∧
      (0 ≤ lead.leadScore.getD 0 →
        0 ≤ ProductionRouter.calculateLeadScore lead hour ∧
          ProductionRouter.calculateLeadScore lead hour ≤ 100) := by
  have hbase : ∀ hsig : 0 ≤ lead.leadScore.getD 0,
      (0 : ℚ) ≤ (match lead.leadScore with
        | none => (50 : ℚ)
        | some s => if s = 0 then 50 else s) := by
    intro hsig
    cases hls : lead.leadScore with
    | none => norm_num
    | some s =>
      rw [hls] at hsig
      simp only [Option.getD_some] at hsig
      by_cases h0 : s = 0
      · simp [h0]
      · simp only [if_neg h0]
        exact hsig
  constructor
  · unfold ProductionRouter.calculateLeadScore c4AmendedScore
    cases lead.leadScore with
    | none =>
      dsimp only
      split_ifs <;> (congr 1 <;> ring_nf)
    | some s =>
      dsimp only
      split_ifs <;> (congr 1 <;> ring_nf)
  · intro hsig
    have hmul : 0 < sourceMultipliers lead.source := sourceMultipliers_pos _
    have hb := hbase hsig
    unfold ProductionRouter.calculateLeadScore
    set b : ℚ := (match lead.leadScore with
      | none => (50 : ℚ)
      | some s => if s = 0 then 50 else s) with hbdef
    have hprod : (0 : ℚ) ≤ b * sourceMultipliers lead.source :=
      mul_nonneg hb hmul.le
    constructor
    · dsimp only
      refine le_min (by norm_num) ?_
      unfold jsRound
      refine Int.le_floor.mpr ?_
      push_cast
      split_ifs <;> linarith
    · exact min_le_left _ _

/-- Witness for the amended claim C4 at a concrete lead with a nonnegative
raw signal. -/
theorem claim4_amended_witness :
    (0 : ℚ) ≤ leadMidScore.leadScore.getD 0 ∧
      ProductionRouter.calculateLeadScore leadMidScore 12 = c4AmendedScore leadMidScore 12 ∧
      0 ≤ ProductionRouter.calculateLeadScore leadMidScore 12 ∧
      ProductionRouter.calculateLeadScore leadMidScore 12 ≤ 100 :=
  ⟨by decide, (claim4_amended leadMidScore 12).1,
    ((claim4_amended leadMidScore 12).2 (by decide)).1,
    ((claim4_amended leadMidScore 12).2 (by decide)).2⟩

/-- Claim C5 counterexample (the claim is corrected): `routeLead` in
`routerTest.js` only rejects an absent or empty zip; the present but
malformed zip `"ABCDE"` passes its validation, geocoding is attempted,
and the call ends in the `OUT_OF_RANGE` outcome instead of the
invalid-input one. -/
theorem claim5_cex :
    zipTruthy leadBadZip.zip = true ∧ isFiveDigits "ABCDE" = false ∧
      (RouterTest.routeLead havZero geoNone capRemoteNone 12 leadBadZip [locDowntown]).1 =
        RouterTest.RouteOutcome.outOfRange := by
  refine ⟨by decide, by decide, by decide⟩

/-- Claim C5 amended: `production-router.js` rejects every lead whose zip
is missing or not exactly five ASCII digits with the `INVALID_LEAD`
response before any geocoding or capacity work — the result does not
depend on the geocoding or capacity oracles at all and the lead object is
left unchanged; the `routerTest.js` variant checks only that a zip is
present and nonempty (see the counterexample). -/
theorem claim5_amended (lead : Lead)
    (hbad : lead.zip = none ∨ ∀ z, lead.zip = some z → isFiveDigits z = false) :
    ∀ (hav : Coord → Coord → ℚ) (geo : String → Option Coord) (capApi : String → Capacity)
      (hour : ℕ) (locations : List Location),
      ProductionRouter.routeLead hav geo capApi hour lead locations =
        (ProductionRouter.ProdOutcome.invalidLead, lead) := by
  intro hav geo capApi hour locations
  have hv : ProductionRouter.validateLead lead = false := by
    unfold ProductionRouter.validateLead
    rcases hbad with h | h
    · rw [h]
      simp
    · cases hz : lead.zip with
      | none => simp
      | some z =>
        simp [h z hz]
  unfold ProductionRouter.routeLead
  rw [hv]
  simp

/-- Witness for the amended claim C5 at a concrete malformed lead. -/
theorem claim5_amended_witness :
    (leadBadZip.zip = none ∨ ∀ z, leadBadZip.zip = some z → isFiveDigits z = false) ∧
      ProductionRouter.routeLead havZero geoNone capProdSim 12 leadBadZip [locDowntown] =
        (ProductionRouter.ProdOutcome.invalidLead, leadBadZip) := by
  have hbad : leadBadZip.zip = none ∨ ∀ z, leadBadZip.zip = some z → isFiveDigits z = false := by
    right
    intro z hz
    cases Option.some.inj hz
    decide
  exact ⟨hbad, claim5_amended leadBadZip hbad havZero geoNone capProdSim 12 [locDowntown]⟩

/-- Claim C10 (confirmed): once validation has passed, `routeLead` writes
the computed `finalScore` into the caller's lead object in place before
any location filtering, so the post-call state of the input lead carries
the score on every outcome, including the out-of-range and no-capacity
failures; whenever the stored score differs from the incoming
`finalScore` field, the input record really is changed. -/
theorem claim10_mutation (hav : Coord → Coord → ℚ) (geo : String → Option Coord)
    (capApi : String → Option Capacity) (hour : ℕ) (lead : Lead) (locations : List Location)
    (z : String) (hz : lead.zip = some z) (hne : z.isEmpty = false) (hlocs : locations ≠ []) :
    (RouterTest.routeLead hav geo capApi hour lead locations).2 =
        { lead with finalScore := some (RouterTest.calculateLeadScore lead hour) } ∧
      (lead.finalScore ≠ some (RouterTest.calculateLeadScore lead hour) →
        (RouterTest.routeLead hav geo capApi hour lead locations).2 ≠ lead) := by
  rw [RouterTest.routeLead_validated hav geo capApi hour lead locations z hz hne hlocs]
  refine ⟨rfl, fun hneq heq => hneq ?_⟩
  have h2 := congrArg Lead.finalScore heq
  simpa using h2.symm

/-- Witness for claim C10: a concrete call that ends in the out-of-range
failure still returns the mutated lead. -/
theorem claim10_mutation_witness :
    (RouterTest.routeLead havZero geoNone capRemoteNone 12 leadHigh [locDowntown]).2 =
        { leadHigh with finalScore := some (RouterTest.calculateLeadScore leadHigh 12) } ∧
      (leadHigh.finalScore ≠ some (RouterTest.calculateLeadScore leadHigh 12) →
        (RouterTest.routeLead havZero geoNone capRemoteNone 12 leadHigh [locDowntown]).2 ≠
          leadHigh) :=
  claim10_mutation havZero geoNone capRemoteNone 12 leadHigh [locDowntown] "90001" rfl rfl
    (List.cons_ne_nil _ _)

/-- Claim C8 (confirmed): whenever either endpoint of a distance
computation fails to resolve, the distance is the sentinel `999`, and a
location whose lookup (or whose lead-side lookup) failed never appears in
the radius-filtered candidate list — `999` exceeds the 25-mile radius, so
the ordinary filter removes it with no special-casing. -/
theorem claim8_sentinel (hav : Coord → Coord → ℚ) (geo : String → Option Coord)
    (leadZip : String) (locations : List Location) (location : Location)
    (hunres : geo leadZip = none ∨ geo location.zipCode = none) :
    calculateRealDistance hav geo leadZip location.zipCode = 999 ∧
      ∀ rl ∈ RouterTest.getNearestLocations hav geo leadZip locations, rl.loc ≠ location := by
  have h999 : calculateRealDistance hav geo leadZip location.zipCode = 999 := by
    unfold calculateRealDistance
    rcases hunres with h | h
    · rw [h]
    · cases hg : geo leadZip <;> rw [h]
  refine ⟨h999, ?_⟩
  intro rl hrl heq
  have hmem : rl ∈ RouterTest.inRangeLocations hav geo leadZip locations :=
    (List.perm_insertionSort distLE _).subset hrl
  unfold RouterTest.inRangeLocations RouterTest.locationsWithDistance at hmem
  obtain ⟨hmap, hle⟩ := List.mem_filter.mp hmem
  obtain ⟨l, _, hrl_eq⟩ := List.mem_map.mp hmap
  subst hrl_eq
  have hdist : l = location := heq
  rw [hdist] at hle
  rw [h999] at hle
  norm_num [CONFIG] at hle

/-- Witness for claim C8: the lookup for `locWestside`'s zip fails, its
distance is the sentinel, and it is absent from the candidate list. -/
theorem claim8_sentinel_witness :
    calculateRealDistance havZero geoOnly90001 "90001" locWestside.zipCode = 999 ∧
      ∀ rl ∈ RouterTest.getNearestLocations havZero geoOnly90001 "90001"
          [locDowntown, locWestside], rl.loc ≠ locWestside :=
  claim8_sentinel havZero geoOnly90001 "90001" [locDowntown, locWestside] locWestside
    (Or.inr rfl)

/-- Claim C3 counterexample (the claim is corrected): two equidistant
candidates keep their input order — `loc_b` before `loc_a` — so the
candidate list is not ordered with distance ties broken by the location
identifier. -/
theorem claim3_cex :
    ¬ tieBrokenById (RouterTest.getNearestLocations havZero geoOrigin "90001"
      [locIdB, locIdA]) := by
  decide

/-- Claim C3 amended: the candidate list passed on to capacity checking
consists exactly of the distance-decorated locations within the service
radius (a permutation of the radius filter of the input), it is sorted
ascending by distance, and the JavaScript sort being stable, candidates at
equal distance keep their input-list order — the sublist at every fixed
distance equals that of the unsorted filter; ties are not re-ordered by
location identifier. -/
theorem claim3_amended (hav : Coord → Coord → ℚ) (geo : String → Option Coord)
    (leadZip : String) (locations : List Location) :
    (RouterTest.getNearestLocations hav geo leadZip locations).Perm
        (RouterTest.inRangeLocations hav geo leadZip locations) ∧
      List.Sorted distLE (RouterTest.getNearestLocations hav geo leadZip locations) ∧
      ∀ d : ℚ,
        (RouterTest.getNearestLocations hav geo leadZip locations).filter
            (fun rl => decide (rl.distance = d)) =
          (RouterTest.inRangeLocations hav geo leadZip locations).filter
            (fun rl => decide (rl.distance = d)) := by
  refine ⟨List.perm_insertionSort distLE _,
    getNearestLocations_sorted hav geo leadZip locations, fun d => ?_⟩
  exact filter_key_insertionSort distLE (fun rl => rl.distance)
    (fun x y h he => h (le_of_eq he.symm)) _ d
/-- Claim C1 (confirmed): on every routing call in which at least one
in-range candidate is operational and has capacity, the selection is:
when the computed finalScore reaches the high-score threshold (80), the
closest available candidate (no available candidate is strictly nearer);
otherwise an available candidate tagged `low-traffic` when one exists,
and the closest available candidate when none does. -/
theorem claim1_selection_policy (hav : Coord → Coord → ℚ) (geo : String → Option Coord)
    (capApi : String → Option Capacity) (hour : ℕ) (lead : Lead) (locations : List Location)
    (z : String) (hz : lead.zip = some z) (hne : z.isEmpty = false)
    (havne : RouterTest.availableOf (RouterTest.candidates hav geo capApi z locations) ≠ []) :
    ∃ sel reason,
      (RouterTest.routeLead hav geo capApi hour lead locations).1 =
          RouterTest.RouteOutcome.routed sel reason
            (decide (CONFIG.HIGH_SCORE_THRESHOLD ≤ RouterTest.calculateLeadScore lead hour)) ∧
        sel ∈ RouterTest.availableOf (RouterTest.candidates hav geo capApi z locations) ∧
        (CONFIG.HIGH_SCORE_THRESHOLD ≤ RouterTest.calculateLeadScore lead hour →
          ∀ x ∈ RouterTest.availableOf (RouterTest.candidates hav geo capApi z locations),
            sel.distance ≤ x.distance) ∧
        (RouterTest.calculateLeadScore lead hour < CONFIG.HIGH_SCORE_THRESHOLD →
          ((∃ x ∈ RouterTest.availableOf (RouterTest.candidates hav geo capApi z locations),
              x.loc.priority = "low-traffic") → sel.loc.priority = "low-traffic") ∧
          ((∀ x ∈ RouterTest.availableOf (RouterTest.candidates hav geo capApi z locations),
              x.loc.priority ≠ "low-traffic") →
            ∀ x ∈ RouterTest.availableOf (RouterTest.candidates hav geo capApi z locations),
              sel.distance ≤ x.distance)) := by
  obtain ⟨first, rest, hfr⟩ : ∃ f r,
      RouterTest.availableOf (RouterTest.candidates hav geo capApi z locations) = f :: r := by
    cases h : RouterTest.availableOf (RouterTest.candidates hav geo capApi z locations) with
    | nil => exact absurd h havne
    | cons f r => exact ⟨f, r, rfl⟩
  have hfr' : RouterTest.availableOf (RouterTest.withCapacity capApi
      (RouterTest.getNearestLocations hav geo z locations)) = first :: rest := hfr
  have hwc_ne : RouterTest.candidates hav geo capApi z locations ≠ [] := by
    intro h
    apply havne
    rw [h]
    rfl
  have hnl_ne : RouterTest.getNearestLocations hav geo z locations ≠ [] := by
    intro h
    apply hwc_ne
    unfold RouterTest.candidates RouterTest.withCapacity
    rw [h]
    exact List.map_nil
  have hlocs_ne : locations ≠ [] := by
    intro h
    apply hnl_ne
    subst h
    rfl
  have hsort_av :
      List.Pairwise cdistLE
        (RouterTest.availableOf (RouterTest.candidates hav geo capApi z locations)) :=
    (candidates_sorted hav geo capApi z locations).sublist (List.filter_sublist _)
  have hfirst_min : ∀ x ∈ RouterTest.availableOf (RouterTest.candidates hav geo capApi z locations),
      first.distance ≤ x.distance := by
    rw [hfr] at hsort_av ⊢
    intro x hx
    rcases List.mem_cons.mp hx with h | h
    · rw [h]
    · exact List.rel_of_pairwise_cons hsort_av h
  rw [RouterTest.routeLead_validated hav geo capApi hour lead locations z hz hne hlocs_ne]
  have hnlE : (RouterTest.getNearestLocations hav geo z locations).isEmpty = false := by
    rw [List.isEmpty_eq_false]
    exact hnl_ne
  by_cases hs : CONFIG.HIGH_SCORE_THRESHOLD ≤ RouterTest.calculateLeadScore lead hour
  · refine ⟨first, "High-value lead routed to closest available location", ?_, ?_, ?_, ?_⟩
    · show RouterTest.routeScored hav geo capApi (RouterTest.calculateLeadScore lead hour)
          z locations = _
      unfold RouterTest.routeScored
      dsimp only
      rw [hnlE]
      simp only [Bool.false_eq_true, if_false]
      rw [hfr']
      simp only [decide_eq_true hs, if_true]
    · rw [hfr]
      exact List.mem_cons_self _ _
    · intro _
      exact hfirst_min
    · intro hlt
      exact absurd hs (not_le.mpr hlt)
  · have hisF : decide (CONFIG.HIGH_SCORE_THRESHOLD ≤ RouterTest.calculateLeadScore lead hour)
        = false := decide_eq_false hs
    cases hfind : (RouterTest.availableOf (RouterTest.candidates hav geo capApi z
        locations)).find? (fun loc => decide (loc.loc.priority = "low-traffic")) with
    | some lt =>
      refine ⟨lt, "Standard lead routed to low-traffic location", ?_, ?_, ?_, ?_⟩
      · show RouterTest.routeScored hav geo capApi (RouterTest.calculateLeadScore lead hour)
            z locations = _
        unfold RouterTest.routeScored
        dsimp only
        rw [hnlE]
        simp only [Bool.false_eq_true, if_false]
        rw [hfr']
        simp only [hisF, Bool.false_eq_true, if_false]
        rw [hfr] at hfind
        rw [hfind]
      · exact List.mem_of_find?_eq_some hfind
      · intro hge
        exact absurd hge hs
      · intro _
        refine ⟨fun _ => ?_, fun hnolow => ?_⟩
        · have hp := List.find?_some hfind
          simpa using hp
        · have hlt_mem := List.mem_of_find?_eq_some hfind
          have hp := List.find?_some hfind
          simp only [decide_eq_true_eq] at hp
          exact absurd hp (hnolow lt hlt_mem)
    | none =>
      refine ⟨first, "Standard lead routed to closest available location", ?_, ?_, ?_, ?_⟩
      · show RouterTest.routeScored hav geo capApi (RouterTest.calculateLeadScore lead hour)
            z locations = _
        unfold RouterTest.routeScored
        dsimp only
        rw [hnlE]
        simp only [Bool.false_eq_true, if_false]
        rw [hfr']
        simp only [hisF, Bool.false_eq_true, if_false]
        rw [hfr] at hfind
        rw [hfind]
      · rw [hfr]
        exact List.mem_cons_self _ _
      · intro hge
        exact absurd hge hs
      · intro _
        refine ⟨fun hex => ?_, fun _ => hfirst_min⟩
        obtain ⟨x, hx, hxlow⟩ := hex
        have hnone := List.find?_eq_none.mp hfind x hx
        simp only [decide_eq_true_eq] at hnone
        exact absurd hxlow hnone

/-- Witness for claim C1: a concrete high-score routing call in which the
closest of two available candidates is selected. -/
theorem claim1_selection_policy_witness :
    ∃ sel reason,
      (RouterTest.routeLead havZero geoOrigin capRemoteNone 12 leadHigh
          [locDowntown, locWestside]).1 =
          RouterTest.RouteOutcome.routed sel reason
            (decide (CONFIG.HIGH_SCORE_THRESHOLD ≤ RouterTest.calculateLeadScore leadHigh 12)) ∧
        sel ∈ RouterTest.availableOf (RouterTest.candidates havZero geoOrigin capRemoteNone
          "90001" [locDowntown, locWestside]) ∧
        (CONFIG.HIGH_SCORE_THRESHOLD ≤ RouterTest.calculateLeadScore leadHigh 12 →
          ∀ x ∈ RouterTest.availableOf (RouterTest.candidates havZero geoOrigin capRemoteNone
            "90001" [locDowntown, locWestside]), sel.distance ≤ x.distance) ∧
        (RouterTest.calculateLeadScore leadHigh 12 < CONFIG.HIGH_SCORE_THRESHOLD →
          ((∃ x ∈ RouterTest.availableOf (RouterTest.candidates havZero geoOrigin capRemoteNone
              "90001" [locDowntown, locWestside]), x.loc.priority = "low-traffic") →
            sel.loc.priority = "low-traffic") ∧
          ((∀ x ∈ RouterTest.availableOf (RouterTest.candidates havZero geoOrigin capRemoteNone
              "90001" [locDowntown, locWestside]), x.loc.priority ≠ "low-traffic") →
            ∀ x ∈ RouterTest.availableOf (RouterTest.candidates havZero geoOrigin capRemoteNone
              "90001" [locDowntown, locWestside]), sel.distance ≤ x.distance)) :=
  claim1_selection_policy havZero geoOrigin capRemoteNone 12 leadHigh
    [locDowntown, locWestside] "90001" rfl rfl (by decide)
/-- Claim C2 (confirmed): on every routing call in which no in-range
candidate has capacity but some candidate is operationally active (and
fallback is enabled, as it is in the configuration), the result is the
waitlist outcome naming an operational in-range candidate with the
greatest `availableSlots`, and among the operational candidates tied at
that slot count the named one is at the smallest distance (the stable
descending sort keeps the distance-ascending input order on ties). -/
theorem claim2_waitlist_fallback (hav : Coord → Coord → ℚ) (geo : String → Option Coord)
    (capApi : String → Option Capacity) (hour : ℕ) (lead : Lead) (locations : List Location)
    (z : String) (hz : lead.zip = some z) (hne : z.isEmpty = false)
    (hnocap : ∀ c ∈ RouterTest.candidates hav geo capApi z locations,
      c.capacity.hasCapacity = false)
    (hop : ∃ c ∈ RouterTest.candidates hav geo capApi z locations,
      c.capacity.isOperational = true) :
    ∃ fb,
      (RouterTest.routeLead hav geo capApi hour lead locations).1 =
          RouterTest.RouteOutcome.waitlisted fb
            "No capacity at nearest locations, routed to best available"
            (decide (CONFIG.HIGH_SCORE_THRESHOLD ≤ RouterTest.calculateLeadScore lead hour)) ∧
        fb ∈ RouterTest.candidates hav geo capApi z locations ∧
        fb.capacity.isOperational = true ∧
        (∀ x ∈ RouterTest.candidates hav geo capApi z locations,
          x.capacity.isOperational = true →
            x.capacity.availableSlots ≤ fb.capacity.availableSlots) ∧
        (∀ x ∈ RouterTest.candidates hav geo capApi z locations,
          x.capacity.isOperational = true →
            x.capacity.availableSlots = fb.capacity.availableSlots →
              fb.distance ≤ x.distance) := by
  have hcand_ne : RouterTest.candidates hav geo capApi z locations ≠ [] := by
    obtain ⟨c, hc, _⟩ := hop
    intro h
    rw [h] at hc
    exact absurd hc (List.not_mem_nil c)
  have hnl_ne : RouterTest.getNearestLocations hav geo z locations ≠ [] := by
    intro h
    apply hcand_ne
    unfold RouterTest.candidates RouterTest.withCapacity
    rw [h]
    exact List.map_nil
  have hlocs_ne : locations ≠ [] := by
    intro h
    apply hnl_ne
    subst h
    rfl
  have hav_nil : RouterTest.availableOf (RouterTest.candidates hav geo capApi z locations)
      = [] := by
    unfold RouterTest.availableOf
    refine List.filter_eq_nil_iff.mpr fun c hc => ?_
    simp [hnocap c hc]
  have hav_nil' : RouterTest.availableOf (RouterTest.withCapacity capApi
      (RouterTest.getNearestLocations hav geo z locations)) = [] := hav_nil
  have hopl_ne : (RouterTest.candidates hav geo capApi z locations).filter
      (fun loc => loc.capacity.isOperational) ≠ [] := by
    obtain ⟨c, hc, hcop⟩ := hop
    intro h
    have hq := List.filter_eq_nil_iff.mp h c hc
    simp [hcop] at hq
  have hfb_ne : RouterTest.fallbackCandidates
      (RouterTest.candidates hav geo capApi z locations) ≠ [] := by
    unfold RouterTest.fallbackCandidates
    intro h
    apply hopl_ne
    have hperm := List.perm_insertionSort slotsGE
      ((RouterTest.candidates hav geo capApi z locations).filter
        (fun loc => loc.capacity.isOperational))
    rw [h] at hperm
    exact hperm.nil_eq.symm
  obtain ⟨fb, frest, hfbr⟩ : ∃ f r, RouterTest.fallbackCandidates
      (RouterTest.candidates hav geo capApi z locations) = f :: r := by
    cases h : RouterTest.fallbackCandidates
        (RouterTest.candidates hav geo capApi z locations) with
    | nil => exact absurd h hfb_ne
    | cons f r => exact ⟨f, r, rfl⟩
  have hfbr' : RouterTest.fallbackCandidates (RouterTest.withCapacity capApi
      (RouterTest.getNearestLocations hav geo z locations)) = fb :: frest := hfbr
  -- membership and operational status of the fallback location
  have hfb_opl : fb ∈ (RouterTest.candidates hav geo capApi z locations).filter
      (fun loc => loc.capacity.isOperational) := by
    have hmem : fb ∈ RouterTest.fallbackCandidates
        (RouterTest.candidates hav geo capApi z locations) := by
      rw [hfbr]
      exact List.mem_cons_self _ _
    exact (List.perm_insertionSort slotsGE _).subset hmem
  obtain ⟨hfb_cand, hfb_opB⟩ := List.mem_filter.mp hfb_opl
  have hfb_op : fb.capacity.isOperational = true := hfb_opB
  -- the sort is descending in available slots
  have hsorted : List.Sorted slotsGE (RouterTest.fallbackCandidates
      (RouterTest.candidates hav geo capApi z locations)) :=
    List.sorted_insertionSort slotsGE _
  have hmax : ∀ x ∈ RouterTest.candidates hav geo capApi z locations,
      x.capacity.isOperational = true →
        x.capacity.availableSlots ≤ fb.capacity.availableSlots := by
    intro x hx hxop
    have hxopl : x ∈ (RouterTest.candidates hav geo capApi z locations).filter
        (fun loc => loc.capacity.isOperational) :=
      List.mem_filter.mpr ⟨hx, by simp [hxop]⟩
    have hxs : x ∈ RouterTest.fallbackCandidates
        (RouterTest.candidates hav geo capApi z locations) :=
      (List.perm_insertionSort slotsGE _).symm.subset hxopl
    rw [hfbr] at hxs
    rcases List.mem_cons.mp hxs with h | h
    · rw [h]
    · have hsorted2 : List.Sorted slotsGE (fb :: frest) := hfbr ▸ hsorted
      have hrel : slotsGE fb x := List.rel_of_pairwise_cons hsorted2 h
      exact hrel
  -- stability: among maximal-slot operational candidates, fb is the closest
  have hstab := filter_key_insertionSort slotsGE
    (fun c : CLoc => c.capacity.availableSlots)
    (fun x y h he => h (le_of_eq he))
    ((RouterTest.candidates hav geo capApi z locations).filter
      (fun loc => loc.capacity.isOperational))
    fb.capacity.availableSlots
  have hkeyfilter : ((RouterTest.candidates hav geo capApi z locations).filter
        (fun loc => loc.capacity.isOperational)).filter
      (fun x => decide (x.capacity.availableSlots = fb.capacity.availableSlots)) =
        fb :: frest.filter
          (fun x => decide (x.capacity.availableSlots = fb.capacity.availableSlots)) := by
    rw [← hstab]
    show (RouterTest.fallbackCandidates
        (RouterTest.candidates hav geo capApi z locations)).filter _ = _
    rw [hfbr, List.filter_cons]
    simp
  have htie : ∀ x ∈ RouterTest.candidates hav geo capApi z locations,
      x.capacity.isOperational = true →
        x.capacity.availableSlots = fb.capacity.availableSlots →
          fb.distance ≤ x.distance := by
    intro x hx hxop hxslots
    have hsort_opl : List.Pairwise cdistLE
        ((RouterTest.candidates hav geo capApi z locations).filter
          (fun loc => loc.capacity.isOperational)) :=
      (candidates_sorted hav geo capApi z locations).sublist (List.filter_sublist _)
    have hsort_pf : List.Pairwise cdistLE
        (((RouterTest.candidates hav geo capApi z locations).filter
          (fun loc => loc.capacity.isOperational)).filter
            (fun c => decide (c.capacity.availableSlots = fb.capacity.availableSlots))) :=
      hsort_opl.sublist (List.filter_sublist _)
    rw [hkeyfilter] at hsort_pf
    have hxopl : x ∈ (RouterTest.candidates hav geo capApi z locations).filter
        (fun loc => loc.capacity.isOperational) :=
      List.mem_filter.mpr ⟨hx, by simp [hxop]⟩
    have hxpf : x ∈ ((RouterTest.candidates hav geo capApi z locations).filter
        (fun loc => loc.capacity.isOperational)).filter
          (fun c => decide (c.capacity.availableSlots = fb.capacity.availableSlots)) :=
      List.mem_filter.mpr ⟨hxopl, by simp [hxslots]⟩
    rw [hkeyfilter] at hxpf
    rcases List.mem_cons.mp hxpf with h | h
    · rw [h]
    · have hrel : cdistLE fb x := List.rel_of_pairwise_cons hsort_pf h
      exact hrel
  -- assemble the outcome
  refine ⟨fb, ?_, hfb_cand, hfb_op, hmax, htie⟩
  rw [RouterTest.routeLead_validated hav geo capApi hour lead locations z hz hne hlocs_ne]
  have hnlE : (RouterTest.getNearestLocations hav geo z locations).isEmpty = false := by
    rw [List.isEmpty_eq_false]
    exact hnl_ne
  show RouterTest.routeScored hav geo capApi (RouterTest.calculateLeadScore lead hour)
      z locations = _
  unfold RouterTest.routeScored
  dsimp only
  rw [hnlE]
  simp only [Bool.false_eq_true, if_false]
  rw [hav_nil']
  have hEN : CONFIG.FALLBACK_ENABLED = true := rfl
  rw [if_pos hEN]
  rw [hfbr']

/-- Witness for claim C2: every candidate is full, both are operational,
and the one with the most available slots is waitlisted. -/
theorem claim2_waitlist_fallback_witness :
    ∃ fb,
      (RouterTest.routeLead havZero geoOrigin capAllFull 12 leadLow
          [locDowntown, locWestside]).1 =
          RouterTest.RouteOutcome.waitlisted fb
            "No capacity at nearest locations, routed to best available"
            (decide (CONFIG.HIGH_SCORE_THRESHOLD ≤ RouterTest.calculateLeadScore leadLow 12)) ∧
        fb ∈ RouterTest.candidates havZero geoOrigin capAllFull "90001"
          [locDowntown, locWestside] ∧
        fb.capacity.isOperational = true ∧
        (∀ x ∈ RouterTest.candidates havZero geoOrigin capAllFull "90001"
            [locDowntown, locWestside],
          x.capacity.isOperational = true →
            x.capacity.availableSlots ≤ fb.capacity.availableSlots) ∧
        (∀ x ∈ RouterTest.candidates havZero geoOrigin capAllFull "90001"
            [locDowntown, locWestside],
          x.capacity.isOperational = true →
            x.capacity.availableSlots = fb.capacity.availableSlots →
              fb.distance ≤ x.distance) :=
  claim2_waitlist_fallback havZero geoOrigin capAllFull 12 leadLow
    [locDowntown, locWestside] "90001" rfl rfl (by decide) (by decide)
